import Mathlib

/-!
Verification of the YourCabs prediction preprocessing and scoring pipeline.

The definitions below are a shallow embedding of `src/model_utils.py`
(class `ModelPredictor`) and of the outlier-clipping step of
`src/data_processor.py` (method `DataProcessor.clean_booking_data`).
Probabilities and feature values are modelled as rationals; the external
classifier artifact is an opaque function producing a probability; pandas
dataframe rows are lists; fallible Python code (raising) is modelled with
`Except`.
-/

namespace YourCabs

/-- A parsed-or-not `booking_created` value.  `pd.to_datetime` either yields a
timestamp carrying hour (0-23), day-of-week (0-6) and month (1-12), or raises
on an unparseable string; the `malformed` constructor stands for an input on
which parsing fails. -/
inductive Timestamp where
  | valid (hour dayOfWeek month : ℕ)
  | malformed
deriving DecidableEq

/-- A single booking record as passed to `ModelPredictor.predict`: a Python
dict whose keys are all optional.  A key absent from the dict (or, for
`booking_created`, present with a falsy value) is `none`. -/
structure BookingData where
  booking_created : Option Timestamp
  online_booking : Option ℚ
  mobile_site_booking : Option ℚ
  vehicle_model_id : Option ℚ
  travel_type_id : Option ℚ
  from_area_id : Option ℚ
  to_area_id : Option ℚ
  from_lat : Option ℚ
  from_long : Option ℚ
  to_lat : Option ℚ
  to_long : Option ℚ
  from_city_id : Option ℚ
  is_round_trip : Option Bool
  booking_channel : Option String
deriving DecidableEq

/-- A booking record lacking every optional field (an empty dict). -/
def emptyBooking : BookingData :=
  ⟨none, none, none, none, none, none, none, none, none, none, none, none,
   none, none⟩

/-- The 18-column feature row built by `ModelPredictor.preprocess_input`,
in the order of the hardcoded feature list of `load_model`. -/
structure FeatureVec where
  online_booking : ℚ
  mobile_site_booking : ℚ
  vehicle_model_id : ℚ
  travel_type_id : ℚ
  from_area_id : ℚ
  to_area_id : ℚ
  booking_hour : ℚ
  booking_day_of_week : ℚ
  booking_month : ℚ
  is_round_trip : ℚ
  channel_mobile : ℚ
  channel_online : ℚ
  channel_other : ℚ
  from_lat : ℚ
  from_long : ℚ
  to_lat : ℚ
  to_long : ℚ
  from_city_id : ℚ
deriving DecidableEq

/-- The temporal features of `preprocess_input` (lines 88-94): when
`booking_created` is absent (or falsy) the three features keep their 0
initialization; otherwise `pd.to_datetime` either raises on an unparseable
value or yields hour / day-of-week / month. -/
def temporalFeatures : Option Timestamp → Except String (ℚ × ℚ × ℚ)
  | none => Except.ok (0, 0, 0)
  | some Timestamp.malformed => Except.error "Unknown datetime string format"
  | some (Timestamp.valid h d m) => Except.ok ((h : ℚ), (d : ℚ), (m : ℚ))

/-- `ModelPredictor.preprocess_input` (model_utils.py lines 79-129).  Every
feature starts at 0; temporal features come from `pd.to_datetime` of
`booking_created` when that key is present and truthy (an unparseable value
makes `pd.to_datetime` raise, modelled as `Except.error`); the direct
feature mappings copy present keys; `is_round_trip` becomes 0/1; the channel
one-hots are assigned only when `booking_channel` is present. -/
def preprocess_input (b : BookingData) : Except String FeatureVec :=
  match temporalFeatures b.booking_created with
  | Except.error e => Except.error e
  | Except.ok (bh, bd, bm) =>
  let rt : ℚ :=
    match b.is_round_trip with
    | none => 0
    | some t => if t then 1 else 0
  let (cm, co, cot) : ℚ × ℚ × ℚ :=
    match b.booking_channel with
    | none => (0, 0, 0)
    | some c =>
        (if c = "mobile" then 1 else 0,
         if c = "online" then 1 else 0,
         if c = "mobile" ∨ c = "online" then 0 else 1)
  Except.ok
    { online_booking := b.online_booking.getD 0
      mobile_site_booking := b.mobile_site_booking.getD 0
      vehicle_model_id := b.vehicle_model_id.getD 0
      travel_type_id := b.travel_type_id.getD 0
      from_area_id := b.from_area_id.getD 0
      to_area_id := b.to_area_id.getD 0
      booking_hour := bh
      booking_day_of_week := bd
      booking_month := bm
      is_round_trip := rt
      channel_mobile := cm
      channel_online := co
      channel_other := cot
      from_lat := b.from_lat.getD 0
      from_long := b.from_long.getD 0
      to_lat := b.to_lat.getD 0
      to_long := b.to_long.getD 0
      from_city_id := b.from_city_id.getD 0 }

/-- The binary decision of both `predict` (line 141) and `batch_predict`
(line 204): 1 iff the probability exceeds 0.109. -/
def binaryFlag (p : ℚ) : ℕ :=
  if p > (0.109 : ℚ) then 1 else 0

/-- The risk-category ladder of `ModelPredictor.predict` (lines 145-159),
evaluated high-to-low with lower-inclusive comparisons. -/
def riskCategory (p : ℚ) : String :=
  if p ≥ (0.50 : ℚ) then "Critical"
  else if p ≥ (0.30 : ℚ) then "High"
  else if p ≥ (0.15 : ℚ) then "Medium"
  else if p ≥ (0.05 : ℚ) then "Low"
  else "Very Low"

/-- The colour assigned alongside the category (lines 145-159). -/
def riskColor (p : ℚ) : String :=
  if p ≥ (0.50 : ℚ) then "🔴"
  else if p ≥ (0.30 : ℚ) then "🟠"
  else if p ≥ (0.15 : ℚ) then "🟡"
  else "🟢"

/-- `ModelPredictor._get_recommendation` (lines 173-184). -/
def getRecommendation (p : ℚ) : String :=
  if p ≥ (0.50 : ℚ) then
    "Critical risk - Immediate intervention required, contact customer proactively"
  else if p ≥ (0.30 : ℚ) then
    "High risk - Consider offering incentives or flexible booking options"
  else if p ≥ (0.15 : ℚ) then
    "Medium risk - Send confirmation reminders and monitor closely"
  else if p ≥ (0.05 : ℚ) then
    "Low risk - Standard monitoring, but keep an eye on booking status"
  else
    "Very low risk - Standard processing, minimal intervention needed"

/-- The confidence label of the result dict (line 167). -/
def confidenceLabel (p : ℚ) : String :=
  if p < (0.1 : ℚ) ∨ p > (0.9 : ℚ) then "High" else "Medium"

/-- The result dict built by `ModelPredictor.predict` (lines 162-169). -/
structure PredictResult where
  probability : ℚ
  prediction : ℕ
  risk_category : String
  risk_color : String
  confidence : String
  recommendation : String
deriving DecidableEq

/-- The predictor state: `self.model` is `None` when the classifier artifact
failed to load, otherwise the loaded probability-producing model (opaque:
`predict_proba(df)[0, 1]` on the single preprocessed feature row). -/
structure ModelPredictor where
  model : Option (FeatureVec → ℚ)

/-- `ModelPredictor.predict` (lines 131-171): raise if the model is not
loaded, preprocess, score, threshold at 0.109, categorize. -/
def ModelPredictor.predict (mp : ModelPredictor) (b : BookingData) :
    Except String PredictResult :=
  match mp.model with
  | none => Except.error "Model not loaded"
  | some m =>
      match preprocess_input b with
      | Except.error e => Except.error e
      | Except.ok df =>
      let probability := m df
      Except.ok
        { probability := probability
          prediction := binaryFlag probability
          risk_category := riskCategory probability
          risk_color := riskColor probability
          confidence := confidenceLabel probability
          recommendation := getRecommendation probability }

/-- The categorical label added by `batch_predict` (lines 207-209):
`pd.cut(probabilities, bins=[0, 0.15, 0.3, 0.5, 1.0],
labels=['Low', 'Medium', 'High', 'Critical'])`.  `pd.cut` uses half-open
`(lo, hi]` bins (right-inclusive, left-exclusive) and yields NaN (`none`)
for a value outside every bin — in particular at exactly 0. -/
def batchRiskCategory (p : ℚ) : Option String :=
  if 0 < p ∧ p ≤ (0.15 : ℚ) then some "Low"
  else if (0.15 : ℚ) < p ∧ p ≤ (0.3 : ℚ) then some "Medium"
  else if (0.3 : ℚ) < p ∧ p ≤ (0.5 : ℚ) then some "High"
  else if (0.5 : ℚ) < p ∧ p ≤ (1 : ℚ) then some "Critical"
  else none

/-- One row of the dataframe returned by `batch_predict`: the input row's
data (`results = df.copy()`) plus the three added columns.  The category
column may be NaN (`none`) because `pd.cut` can yield NaN. -/
structure BatchRow (α : Type) where
  original : α
  cancellation_probability : ℚ
  high_risk_prediction : ℕ
  risk_category : Option String
deriving DecidableEq

/-- `ModelPredictor.batch_predict` (lines 186-217): raise if the model is
not loaded, otherwise score every row and append the three columns to a copy
of the input.  The feature-matrix preparation of lines 192-200 (select the
trained feature columns, fill missing columns and NaNs with 0) feeds the
opaque classifier and is absorbed into the abstract per-row probability
function `m`; the claims quantify over whatever probabilities the classifier
returns.  Rows are processed by position, preserving count and order. -/
def batch_predict {α : Type} (model : Option (α → ℚ)) (rows : List α) :
    Except String (List (BatchRow α)) :=
  match model with
  | none => Except.error "Model not loaded"
  | some m =>
      Except.ok (rows.map fun r =>
        let p := m r
        { original := r
          cancellation_probability := p
          high_risk_prediction := binaryFlag p
          risk_category := batchRiskCategory p })

/-- The five-tier ladder as the specification words it: lower-inclusive
half-open intervals [0,0.05) Very Low, [0.05,0.15) Low, [0.15,0.30) Medium,
[0.30,0.50) High, [0.50,1] Critical.  To be compared with `riskCategory`,
which is the ladder as the code writes it (high-to-low `>=` chain). -/
def specCategory (p : ℚ) : String :=
  if p < (0.05 : ℚ) then "Very Low"
  else if p < (0.15 : ℚ) then "Low"
  else if p < (0.30 : ℚ) then "Medium"
  else if p < (0.50 : ℚ) then "High"
  else "Critical"

/-- Helper: a successful `predict` call with a loaded model is exactly the
result record built from the probability of the preprocessed features. -/
theorem predict_ok_elim (m : FeatureVec → ℚ) (b : BookingData)
    (r : PredictResult) (h : ModelPredictor.predict ⟨some m⟩ b = Except.ok r) :
    ∃ v, preprocess_input b = Except.ok v ∧
      r = ⟨m v, binaryFlag (m v), riskCategory (m v), riskColor (m v),
           confidenceLabel (m v), getRecommendation (m v)⟩ := by
  unfold ModelPredictor.predict at h
  cases hv : preprocess_input b with
  | error e => rw [hv] at h; exact absurd h (by simp)
  | ok v =>
      rw [hv] at h
      simp only [Except.ok.injEq] at h
      exact ⟨v, rfl, h.symm⟩

/-- C1: for every probability p in [0,1] the single-record prediction
assigns the risk category by the five-tier, lower-inclusive ladder of the
spec; in particular p = 0.05 gives Low and p = 0.50 gives Critical, and a
successful `predict` carries exactly that category. -/
theorem risk_category_ladder (p : ℚ) (h0 : 0 ≤ p) (h1 : p ≤ 1) :
    riskCategory p = specCategory p ∧
    riskCategory (0.05 : ℚ) = "Low" ∧
    riskCategory (0.50 : ℚ) = "Critical" ∧
    (∀ (m : FeatureVec → ℚ) (b : BookingData) (r : PredictResult),
      ModelPredictor.predict ⟨some m⟩ b = Except.ok r →
      r.risk_category = riskCategory r.probability) := by
  refine ⟨?_, by norm_num [riskCategory], by norm_num [riskCategory], ?_⟩
  · unfold riskCategory specCategory
    split_ifs <;> first | rfl | linarith
  · intro m b r h
    obtain ⟨v, -, rfl⟩ := predict_ok_elim m b r h
    rfl

/-- Witness for `risk_category_ladder` at p = 1/20 = 0.05. -/
theorem risk_category_ladder_witness :
    riskCategory (1/20 : ℚ) = specCategory (1/20 : ℚ) ∧
    riskCategory (1/20 : ℚ) = "Low" := by
  refine ⟨(risk_category_ladder (1/20) (by norm_num) (by norm_num)).1, ?_⟩
  norm_num [riskCategory]

/-- C2: in both the single-record path and the batch path the binary
decision flag is 1 iff the probability exceeds 0.109 (so p = 0.109 exactly
gives 0), and the flag is `binaryFlag` of the probability alone. -/
theorem binary_flag_spec :
    (∀ p : ℚ, binaryFlag p = 1 ↔ p > (0.109 : ℚ)) ∧
    binaryFlag (0.109 : ℚ) = 0 ∧
    (∀ (m : FeatureVec → ℚ) (b : BookingData) (r : PredictResult),
      ModelPredictor.predict ⟨some m⟩ b = Except.ok r →
      r.prediction = binaryFlag r.probability) ∧
    (∀ (α : Type) (m : α → ℚ) (rows : List α) (out : List (BatchRow α)),
      batch_predict (some m) rows = Except.ok out →
      ∀ br ∈ out,
        br.high_risk_prediction = binaryFlag br.cancellation_probability) := by
  refine ⟨?_, by norm_num [binaryFlag], ?_, ?_⟩
  · intro p
    unfold binaryFlag
    split_ifs with h <;> simp [h]
  · intro m b r h
    obtain ⟨v, -, rfl⟩ := predict_ok_elim m b r h
    rfl
  · intro α m rows out h br hbr
    unfold batch_predict at h
    simp only [Except.ok.injEq] at h
    subst h
    obtain ⟨r, -, rfl⟩ := List.mem_map.mp hbr
    rfl

/-- Witness for `binary_flag_spec`: flag 1 just above the threshold, flag 0
at the threshold, and a concrete successful predict call carrying the flag
of its probability. -/
theorem binary_flag_spec_witness :
    binaryFlag (1091/10000 : ℚ) = 1 ∧ binaryFlag (0.109 : ℚ) = 0 ∧
    (⟨(1/5 : ℚ), 1, "Medium", "🟡", "Medium",
      "Medium risk - Send confirmation reminders and monitor closely"⟩ :
        PredictResult).prediction = binaryFlag (1/5 : ℚ) := by
  refine ⟨(binary_flag_spec.1 _).mpr (by norm_num), binary_flag_spec.2.1, ?_⟩
  exact binary_flag_spec.2.2.1 (fun _ => (1/5 : ℚ)) emptyBooking _ (by
    norm_num [ModelPredictor.predict, preprocess_input, temporalFeatures,
      emptyBooking, binaryFlag, riskCategory, riskColor, confidenceLabel,
      getRecommendation])

/-- C6: with the classifier artifact not loaded (`self.model is None`) both
`predict` and `batch_predict` fail with the model-unavailable error for
every input; no probability is ever produced in that state. -/
theorem model_unavailable :
    (∀ b : BookingData,
      ModelPredictor.predict ⟨none⟩ b = Except.error "Model not loaded") ∧
    (∀ (α : Type) (rows : List α),
      batch_predict (α := α) none rows = Except.error "Model not loaded") :=
  ⟨fun _ => rfl, fun _ _ => rfl⟩

/-- C9 counterexample: the probability-to-category mapping performs no range
validation.  At probability -1/2 < 0 a prediction call does not fail: it
succeeds and returns the Very Low tier with its recommendation. -/
theorem out_of_range_probability_accepted :
    ModelPredictor.predict ⟨some fun _ => -(1/2 : ℚ)⟩ emptyBooking =
      Except.ok ⟨-(1/2), 0, "Very Low", "🟢", "High",
        "Very low risk - Standard processing, minimal intervention needed"⟩ := by
  norm_num [ModelPredictor.predict, preprocess_input, temporalFeatures,
    emptyBooking, binaryFlag, riskCategory, riskColor, confidenceLabel,
    getRecommendation]

/-- C9 amended: the mapping is total on every rational probability — it
never rejects.  Any p < 0.05 (negative included) maps to Very Low, any
p ≥ 0.50 (above 1 included) to Critical, the result is always one of the
five tiers, and whenever preprocessing succeeds the whole predict call
succeeds with a category and recommendation. -/
theorem categorize_total_spec (p : ℚ) :
    (p < (0.05 : ℚ) → riskCategory p = "Very Low") ∧
    ((0.50 : ℚ) ≤ p → riskCategory p = "Critical") ∧
    riskCategory p ∈ ["Very Low", "Low", "Medium", "High", "Critical"] ∧
    (∀ (m : FeatureVec → ℚ) (b : BookingData) (v : FeatureVec),
      preprocess_input b = Except.ok v →
      ModelPredictor.predict ⟨some m⟩ b =
        Except.ok ⟨m v, binaryFlag (m v), riskCategory (m v), riskColor (m v),
          confidenceLabel (m v), getRecommendation (m v)⟩) := by
  refine ⟨?_, ?_, ?_, ?_⟩
  · intro h
    unfold riskCategory
    split_ifs <;> first | rfl | linarith
  · intro h
    unfold riskCategory
    split_ifs <;> first | rfl | linarith
  · unfold riskCategory
    split_ifs <;> simp
  · intro m b v hv
    unfold ModelPredictor.predict
    rw [hv]

/-- Witness for `categorize_total_spec` at the out-of-range inputs -1 and 2. -/
theorem categorize_total_spec_witness :
    riskCategory (-(1 : ℚ)) = "Very Low" ∧ riskCategory (2 : ℚ) = "Critical" :=
  ⟨(categorize_total_spec (-(1 : ℚ))).1 (by norm_num),
   (categorize_total_spec (2 : ℚ)).2.1 (by norm_num)⟩

/-- The recommendation string that belongs to each risk tier, pairing
`_get_recommendation`'s five strings with `predict`'s five category names. -/
def recommendationFor (c : String) : String :=
  if c = "Critical" then
    "Critical risk - Immediate intervention required, contact customer proactively"
  else if c = "High" then
    "High risk - Consider offering incentives or flexible booking options"
  else if c = "Medium" then
    "Medium risk - Send confirmation reminders and monitor closely"
  else if c = "Low" then
    "Low risk - Standard monitoring, but keep an eye on booking status"
  else
    "Very low risk - Standard processing, minimal intervention needed"

/-- C10: for every probability the recommendation returned by
`_get_recommendation` is the one associated with the category returned by
the `predict` ladder — the two ladders use identical thresholds, so a result
never pairs one tier's category with another tier's recommendation. -/
theorem recommendation_matches_category (p : ℚ) :
    getRecommendation p = recommendationFor (riskCategory p) := by
  unfold getRecommendation riskCategory recommendationFor
  split_ifs <;> simp_all

/-- C3 counterexample: at probability 0.02 the batch path labels the row
"Low" while the single-record ladder gives "Very Low" — the batch
`pd.cut` bins are not equivalent to the single-record ladder (they have no
Very Low tier at all). -/
theorem batch_category_mismatch :
    batchRiskCategory (1/50 : ℚ) = some "Low" ∧
    riskCategory (1/50 : ℚ) = "Very Low" ∧
    batchRiskCategory (1/50 : ℚ) ≠ some (riskCategory (1/50 : ℚ)) := by
  have h1 : batchRiskCategory (1/50 : ℚ) = some "Low" := by
    norm_num [batchRiskCategory]
  have h2 : riskCategory (1/50 : ℚ) = "Very Low" := by
    norm_num [riskCategory]
  refine ⟨h1, h2, ?_⟩
  rw [h1, h2]
  decide

/-- C3 amended: the batch category comes from `pd.cut` with right-closed
bins (0,0.15], (0.15,0.3], (0.3,0.5], (0.5,1] and only the four labels Low,
Medium, High, Critical.  It equals the single-record category exactly on
[0.05, 1] minus the boundary points 0.15, 0.3 and 0.5; every batch label is
one of those four tiers. -/
theorem batch_category_agreement (p : ℚ)
    (h0 : (0.05 : ℚ) ≤ p) (h1 : p ≤ 1) (b1 : p ≠ (0.15 : ℚ))
    (b2 : p ≠ (0.3 : ℚ)) (b3 : p ≠ (0.5 : ℚ)) :
    batchRiskCategory p = some (riskCategory p) ∧
    (∀ s, batchRiskCategory p = some s →
      s ∈ ["Low", "Medium", "High", "Critical"]) := by
  constructor
  · rcases b1.lt_or_lt with h15 | h15
    · have hc : riskCategory p = "Low" := by
        unfold riskCategory
        split_ifs <;> first | rfl | linarith
      rw [hc]
      unfold batchRiskCategory
      rw [if_pos ⟨by linarith, by linarith⟩]
    · rcases b2.lt_or_lt with h30 | h30
      · have hc : riskCategory p = "Medium" := by
          unfold riskCategory
          split_ifs <;> first | rfl | linarith
        rw [hc]
        unfold batchRiskCategory
        rw [if_neg (by rintro ⟨-, h⟩; linarith),
          if_pos ⟨by linarith, by linarith⟩]
      · rcases b3.lt_or_lt with h50 | h50
        · have hc : riskCategory p = "High" := by
            unfold riskCategory
            split_ifs <;> first | rfl | linarith
          rw [hc]
          unfold batchRiskCategory
          rw [if_neg (by rintro ⟨-, h⟩; linarith),
            if_neg (by rintro ⟨-, h⟩; linarith),
            if_pos ⟨by linarith, by linarith⟩]
        · have hc : riskCategory p = "Critical" := by
            unfold riskCategory
            split_ifs <;> first | rfl | linarith
          rw [hc]
          unfold batchRiskCategory
          rw [if_neg (by rintro ⟨-, h⟩; linarith),
            if_neg (by rintro ⟨-, h⟩; linarith),
            if_neg (by rintro ⟨-, h⟩; linarith),
            if_pos ⟨by linarith, by linarith⟩]
  · intro s hs
    unfold batchRiskCategory at hs
    split_ifs at hs <;> simp_all

/-- Witness for `batch_category_agreement` at p = 1/5 = 0.2. -/
theorem batch_category_agreement_witness :
    batchRiskCategory (1/5 : ℚ) = some (riskCategory (1/5 : ℚ)) ∧
    "Medium" ∈ ["Low", "Medium", "High", "Critical"] := by
  have h := batch_category_agreement (1/5) (by norm_num) (by norm_num)
    (by norm_num) (by norm_num) (by norm_num)
  exact ⟨h.1, h.2 "Medium" (by norm_num [batchRiskCategory])⟩

/-- C4 counterexample: at probability exactly 0 — inside the claim's range
[0,1] — `pd.cut` yields NaN, so the batch result row carries a null
`risk_category`: the three added columns are not all populated. -/
theorem batch_null_category :
    batch_predict (α := ℕ) (some fun _ => (0 : ℚ)) [0] =
      Except.ok [⟨0, 0, 0, none⟩] ∧
    ((⟨0, 0, 0, none⟩ : BatchRow ℕ).risk_category = none) := by
  refine ⟨?_, rfl⟩
  norm_num [batch_predict, binaryFlag, batchRiskCategory]

/-- Helper: `batchRiskCategory` is `some _` on (0, 1]. -/
theorem batchRiskCategory_isSome (p : ℚ) (hp0 : 0 < p) (hp1 : p ≤ 1) :
    ∃ s, batchRiskCategory p = some s := by
  unfold batchRiskCategory
  split_ifs with h1 h2 h3 h4
  · exact ⟨_, rfl⟩
  · exact ⟨_, rfl⟩
  · exact ⟨_, rfl⟩
  · exact ⟨_, rfl⟩
  · exfalso
    have k1 : (0.15 : ℚ) < p := by
      by_contra hk; exact h1 ⟨hp0, by linarith⟩
    have k2 : (0.3 : ℚ) < p := by
      by_contra hk; exact h2 ⟨k1, by linarith⟩
    have k3 : (0.5 : ℚ) < p := by
      by_contra hk; exact h3 ⟨k2, by linarith⟩
    exact h4 ⟨k3, hp1⟩

/-- C4 amended: batch prediction on N rows returns exactly N rows in the
original order carrying the original row data, with
`cancellation_probability` and `high_risk_prediction` populated for every
row; `risk_category` is populated for every row whose probability lies in
(0, 1], but is null at probability exactly 0 (the left edge excluded by
`pd.cut`). -/
theorem batch_shape_spec (α : Type) (m : α → ℚ) (rows : List α)
    (out : List (BatchRow α))
    (h : batch_predict (some m) rows = Except.ok out) :
    out.length = rows.length ∧
    out.map BatchRow.original = rows ∧
    (∀ br ∈ out, br.cancellation_probability = m br.original ∧
      br.high_risk_prediction = binaryFlag br.cancellation_probability ∧
      br.risk_category = batchRiskCategory br.cancellation_probability) ∧
    (∀ br ∈ out, 0 < br.cancellation_probability →
      br.cancellation_probability ≤ 1 → ∃ s, br.risk_category = some s) := by
  unfold batch_predict at h
  simp only [Except.ok.injEq] at h
  subst h
  refine ⟨by simp, by simp [Function.comp_def], ?_, ?_⟩
  · intro br hbr
    obtain ⟨r, -, rfl⟩ := List.mem_map.mp hbr
    exact ⟨rfl, rfl, rfl⟩
  · intro br hbr hp0 hp1
    obtain ⟨r, -, rfl⟩ := List.mem_map.mp hbr
    exact batchRiskCategory_isSome _ hp0 hp1

/-- Witness for `batch_shape_spec` on a one-row batch with probability 1/5. -/
theorem batch_shape_spec_witness :
    ([⟨7, 1/5, 1, some "Medium"⟩] : List (BatchRow ℕ)).map BatchRow.original
      = [7] := by
  have h := batch_shape_spec ℕ (fun _ => (1/5 : ℚ)) [7]
    [⟨7, 1/5, 1, some "Medium"⟩]
    (by norm_num [batch_predict, binaryFlag, batchRiskCategory])
  exact h.2.1

/-- The all-zero feature row. -/
def zeroFeatureVec : FeatureVec :=
  ⟨0, 0, 0, 0, 0, 0, 0, 0, 0, 0, 0, 0, 0, 0, 0, 0, 0, 0⟩

/-- C5 counterexample: on a booking record lacking every optional field the
builder returns the all-zero vector — the three channel one-hot columns are
all 0 and sum to 0, not 1, because the one-hot assignment only runs when a
`booking_channel` key is present. -/
theorem empty_record_channels_zero :
    preprocess_input emptyBooking = Except.ok zeroFeatureVec ∧
    zeroFeatureVec.channel_mobile + zeroFeatureVec.channel_online +
      zeroFeatureVec.channel_other = 0 := by
  refine ⟨?_, by norm_num [zeroFeatureVec]⟩
  simp [preprocess_input, temporalFeatures, emptyBooking, zeroFeatureVec]

/-- C5 amended: when a record does carry a `booking_channel` value the three
one-hot columns sum to exactly 1, any value other than "mobile" or "online"
sets `channel_other` to 1 (never an error), and the builder succeeds on
every record whose timestamp is absent (the channel value can never cause a
failure).  A record lacking the key leaves all three columns 0. -/
theorem channel_onehot_spec (b : BookingData) (c : String) (v : FeatureVec)
    (hc : b.booking_channel = some c)
    (hv : preprocess_input b = Except.ok v) :
    v.channel_mobile + v.channel_online + v.channel_other = 1 ∧
    (c ≠ "mobile" → c ≠ "online" → v.channel_other = 1) ∧
    (∀ b' : BookingData, b'.booking_created = none →
      ∃ v', preprocess_input b' = Except.ok v') := by
  refine ?_
  unfold preprocess_input at hv
  cases ht : temporalFeatures b.booking_created with
  | error e => rw [ht] at hv; exact absurd hv (by simp)
  | ok t =>
      obtain ⟨bh, bd, bm⟩ := t
      rw [ht] at hv
      simp only [Except.ok.injEq] at hv
      subst hv
      rw [hc]
      refine ⟨?_, ?_, ?_⟩
      · by_cases hm : c = "mobile"
        · simp [hm]
        · by_cases ho : c = "online" <;> simp [hm, ho]
      · intro hm ho
        simp [hm, ho]
      · intro b' hb'
        cases hres : preprocess_input b' with
        | ok v' => exact ⟨v', rfl⟩
        | error e =>
            exfalso
            unfold preprocess_input at hres
            rw [hb'] at hres
            simp [temporalFeatures] at hres

/-- Witness for `channel_onehot_spec`: a record whose only field is the
unrecognized channel "phone" gets channel_other = 1 and one-hot sum 1. -/
theorem channel_onehot_spec_witness :
    (⟨0, 0, 0, 0, 0, 0, 0, 0, 0, 0, 0, 0, 1, 0, 0, 0, 0, 0⟩ :
        FeatureVec).channel_mobile +
      (⟨0, 0, 0, 0, 0, 0, 0, 0, 0, 0, 0, 0, 1, 0, 0, 0, 0, 0⟩ :
        FeatureVec).channel_online +
      (⟨0, 0, 0, 0, 0, 0, 0, 0, 0, 0, 0, 0, 1, 0, 0, 0, 0, 0⟩ :
        FeatureVec).channel_other = 1 := by
  have h := channel_onehot_spec
    ⟨none, none, none, none, none, none, none, none, none, none, none, none,
     none, some "phone"⟩ "phone"
    ⟨0, 0, 0, 0, 0, 0, 0, 0, 0, 0, 0, 0, 1, 0, 0, 0, 0, 0⟩ rfl
    (by simp [preprocess_input, temporalFeatures])
  exact h.1

/-- A record whose `booking_created` value is an unparseable timestamp and
which lacks every other field. -/
def malformedBooking : BookingData :=
  ⟨some Timestamp.malformed, none, none, none, none, none, none, none, none,
   none, none, none, none, none⟩

/-- C7 counterexample: on a malformed `booking_created` the single-record
builder raises (`pd.to_datetime` is called without coercion), instead of
coercing to null and defaulting the temporal features to 0. -/
theorem malformed_timestamp_error :
    preprocess_input malformedBooking =
      Except.error "Unknown datetime string format" := by
  simp [preprocess_input, temporalFeatures, malformedBooking]

/-- C7 amended: the three temporal features default to 0 exactly when the
timestamp is absent (or falsy); a malformed timestamp makes the
single-record builder fail rather than being coerced to null. -/
theorem timestamp_default_spec (b : BookingData) :
    (b.booking_created = none →
      ∃ v, preprocess_input b = Except.ok v ∧ v.booking_hour = 0 ∧
        v.booking_day_of_week = 0 ∧ v.booking_month = 0) ∧
    (b.booking_created = some Timestamp.malformed →
      preprocess_input b = Except.error "Unknown datetime string format") := by
  constructor
  · intro hb
    cases hres : preprocess_input b with
    | error e =>
        exfalso
        unfold preprocess_input at hres
        rw [hb] at hres
        simp [temporalFeatures] at hres
    | ok v =>
        unfold preprocess_input at hres
        rw [hb] at hres
        simp only [temporalFeatures, Except.ok.injEq] at hres
        exact ⟨v, rfl, by rw [← hres], by rw [← hres], by rw [← hres]⟩
  · intro hb
    unfold preprocess_input
    rw [hb]
    simp [temporalFeatures]

/-- Witness for `timestamp_default_spec` at the empty record and at the
malformed-timestamp record. -/
theorem timestamp_default_spec_witness :
    (∃ v, preprocess_input emptyBooking = Except.ok v ∧ v.booking_hour = 0 ∧
      v.booking_day_of_week = 0 ∧ v.booking_month = 0) ∧
    preprocess_input malformedBooking =
      Except.error "Unknown datetime string format" :=
  ⟨(timestamp_default_spec emptyBooking).1 rfl,
   (timestamp_default_spec malformedBooking).2 rfl⟩

/-- pandas `Series.quantile(q)` with the default linear interpolation
(used by `DataProcessor.clean_booking_data`, data_processor.py lines 68-69):
on the sorted values s of length n, position h = q*(n-1), the result is
s[⌊h⌋] + (h - ⌊h⌋) * (s[⌊h⌋+1] - s[⌊h⌋]). -/
def pandasQuantile (xs : List ℚ) (q : ℚ) : ℚ :=
  match List.insertionSort (· ≤ ·) xs with
  | [] => 0
  | y :: t =>
    let s := y :: t
    let n := s.length
    let h : ℚ := q * ((n : ℚ) - 1)
    let i : ℕ := (⌊h⌋).toNat
    let lo := s.getD i y
    let hi := s.getD (i + 1) lo
    lo + (h - (⌊h⌋ : ℚ)) * (hi - lo)

/-- `Q1 - 1.5*IQR` of lines 68-71. -/
def lowerBound (xs : List ℚ) : ℚ :=
  pandasQuantile xs (1/4) -
    3/2 * (pandasQuantile xs (3/4) - pandasQuantile xs (1/4))

/-- `Q3 + 1.5*IQR` of lines 68-72. -/
def upperBound (xs : List ℚ) : ℚ :=
  pandasQuantile xs (3/4) +
    3/2 * (pandasQuantile xs (3/4) - pandasQuantile xs (1/4))

/-- `np.clip(x, lo, hi)` = `min(max(x, lo), hi)`. -/
def npClip (lo hi x : ℚ) : ℚ := min hi (max lo x)

/-- The outlier step of `clean_booking_data` (lines 66-77) for one numeric
column: count the values outside [lowerBound, upperBound]; if any exist,
clip the whole column with `np.clip`, otherwise leave it untouched. -/
def iqrClip (xs : List ℚ) : List ℚ :=
  if xs.any fun x =>
      decide (x < lowerBound xs) || decide (x > upperBound xs) then
    xs.map (npClip (lowerBound xs) (upperBound xs))
  else xs

/-- One column of the table in the loop of lines 66-77: the prediction
target `Car_Cancellation` is skipped, every other numeric column is
outlier-clipped. -/
def cleanColumn (c : String × List ℚ) : String × List ℚ :=
  if c.1 = "Car_Cancellation" then c else (c.1, iqrClip c.2)

/-- The whole outlier pass over the numeric columns of the table. -/
def cleanNumericTable (cols : List (String × List ℚ)) :
    List (String × List ℚ) :=
  cols.map cleanColumn

/-- Helper: whether or not the column has outliers, the outlier step equals
the pointwise `np.clip` of the column (when no value is outside the bounds,
clipping is the identity, so the untouched branch agrees). -/
theorem iqrClip_eq_map (xs : List ℚ) :
    iqrClip xs = xs.map (npClip (lowerBound xs) (upperBound xs)) := by
  unfold iqrClip
  split_ifs with h
  · rfl
  · have hx : ∀ x ∈ xs, npClip (lowerBound xs) (upperBound xs) x = x := by
      intro x hxm
      simp only [List.any_eq_true, Bool.or_eq_true, decide_eq_true_eq] at h
      push_neg at h
      obtain ⟨h1, h2⟩ := h x hxm
      unfold npClip
      rw [max_eq_right h1, min_eq_right h2]
    calc xs = xs.map id := (List.map_id xs).symm
    _ = xs.map (npClip (lowerBound xs) (upperBound xs)) :=
      List.map_congr_left fun x hx2 => (hx x hx2).symm

/-- C8: the outlier pass clips every value of a numeric column to
[Q1 - 1.5*IQR, Q3 + 1.5*IQR] elementwise — a value above the upper bound
becomes exactly the upper bound, below the lower bound exactly the lower
bound, in-range values are unchanged — it never discards a row (column
length is preserved, for the whole table as well), and the prediction
target column is left untouched. -/
theorem outlier_clip_spec (xs : List ℚ) (cols : List (String × List ℚ)) :
    iqrClip xs = xs.map (npClip (lowerBound xs) (upperBound xs)) ∧
    (iqrClip xs).length = xs.length ∧
    (∀ x ∈ xs, lowerBound xs ≤ upperBound xs →
      (upperBound xs < x →
        npClip (lowerBound xs) (upperBound xs) x = upperBound xs) ∧
      (x < lowerBound xs →
        npClip (lowerBound xs) (upperBound xs) x = lowerBound xs) ∧
      (lowerBound xs ≤ x → x ≤ upperBound xs →
        npClip (lowerBound xs) (upperBound xs) x = x)) ∧
    ((cleanNumericTable cols).map fun c => c.2.length) =
      (cols.map fun c => c.2.length) ∧
    (∀ c ∈ cols, c.1 = "Car_Cancellation" → cleanColumn c = c) := by
  refine ⟨iqrClip_eq_map xs, by rw [iqrClip_eq_map]; simp, ?_, ?_, ?_⟩
  · intro x _ hlu
    refine ⟨?_, ?_, ?_⟩
    · intro hgt
      unfold npClip
      rw [max_eq_right (le_of_lt (lt_of_le_of_lt hlu hgt)),
        min_eq_left (le_of_lt hgt)]
    · intro hlt
      unfold npClip
      rw [max_eq_left (le_of_lt hlt), min_eq_right hlu]
    · intro hle hge
      unfold npClip
      rw [max_eq_right hle, min_eq_right hge]
  · unfold cleanNumericTable
    rw [List.map_map]
    refine List.map_congr_left fun c _ => ?_
    unfold cleanColumn
    simp only [Function.comp_apply]
    split_ifs
    · rfl
    · simp [iqrClip_eq_map]
  · intro c _ hc
    unfold cleanColumn
    rw [if_pos hc]

/-- Witness for `outlier_clip_spec`: on the column [10, 20, 30, 40, 1000]
the IQR bounds are [-10, 70]; the outlier 1000 is clipped to exactly 70,
the other values survive unchanged, and the row count stays 5. -/
theorem outlier_clip_spec_witness :
    iqrClip [10, 20, 30, 40, 1000] = [10, 20, 30, 40, 70] ∧
    npClip (lowerBound [10, 20, 30, 40, 1000])
        (upperBound [10, 20, 30, 40, 1000]) 1000 =
      upperBound [10, 20, 30, 40, 1000] ∧
    (iqrClip [10, 20, 30, 40, 1000]).length = 5 := by
  have hl : lowerBound [10, 20, 30, 40, 1000] = -10 := by
    norm_num [lowerBound, pandasQuantile, List.insertionSort,
      List.orderedInsert, List.getD, show Int.toNat 3 = 3 from rfl,
      show Int.toNat 1 = 1 from rfl]
  have hu : upperBound [10, 20, 30, 40, 1000] = 70 := by
    norm_num [upperBound, pandasQuantile, List.insertionSort,
      List.orderedInsert, List.getD, show Int.toNat 3 = 3 from rfl,
      show Int.toNat 1 = 1 from rfl]
  have h := outlier_clip_spec [10, 20, 30, 40, 1000] []
  refine ⟨?_, ?_, ?_⟩
  · rw [h.1, hl, hu]
    norm_num [npClip, min_def, max_def]
  · exact (h.2.2.1 1000 (by norm_num) (by rw [hl, hu]; norm_num)).1
      (by rw [hu]; norm_num)
  · rw [h.2.1]
    rfl

end YourCabs
